import Mathlib

/-!
# Verification of the rust_engine frame-presentation engine

A shallow embedding of `src/graphics/renderer.rs` (the authoritative
renderer of this repository; `src/main.rs` inlines the same logic).

GPU objects are modelled by numeric handles.  The outcomes of the
fallible graphics-API calls a single `render()` performs (fence wait,
swapchain configure, image acquire, framebuffer creation, present) are
inputs to the embedding, collected in a `RenderEnv`.  Each operation
returns an `Outcome`: either a normal return together with the trace of
graphics-API calls it performed, or a panic (Rust `expect`/`unwrap`)
together with the trace up to that point.
-/

namespace RustEngine

/-- `gfx_hal::format::ChannelType` (only the variants the program
inspects are distinguished; `Srgb` is the one tested at
renderer.rs:134). -/
inductive ChannelType where
  | Srgb
  | Unorm
  | Snorm
  | Sfloat
deriving DecidableEq

/-- A surface color format, `gfx_hal::format::Format`: a base-format
code together with its channel type (`format.base_format().1`). -/
structure Format where
  base : Nat
  channel : ChannelType
deriving DecidableEq

/-- The fixed fallback format `Format::Rgba8Srgb` (renderer.rs:129). -/
def Format.Rgba8Srgb : Format := { base := 71, channel := ChannelType.Srgb }

/-- `gfx_hal::window::Extent2D`: width and height are `u32`. -/
structure Extent2D where
  width : Nat
  height : Nat
deriving DecidableEq

/-- The fields of `gfx_hal::window::SurfaceCapabilities` the program
consumes: the supported image-count range (`RangeInclusive<u32>`), the
optional current extent and the supported extent range. -/
structure SurfaceCapabilities where
  image_count_min : Nat
  image_count_max : Nat
  current_extent : Option Extent2D
  min_extent : Extent2D
  max_extent : Extent2D
deriving DecidableEq

/-- `caps.image_count.contains(&n)` for the inclusive range. -/
def SurfaceCapabilities.image_count_contains (caps : SurfaceCapabilities) (n : Nat) : Bool :=
  decide (caps.image_count_min ≤ n) && decide (n ≤ caps.image_count_max)

/-- The fields of `gfx_hal::window::SwapchainConfig` the program
consumes. -/
structure SwapchainConfig where
  format : Format
  extent : Extent2D
  image_count : Nat
deriving DecidableEq

/-- Modelled from the external gfx-hal library (a dependency, not code
of this repository): `SwapchainConfig::from_caps(caps, format,
default_extent)` takes the surface's current extent when it reports
one, otherwise clamps the requested extent into the supported extent
range (`default_extent.width.min(max).max(min)` per axis), and sets
the image count to the default count 2 clamped into the supported
image-count range (`2.max(*range.start()).min(*range.end())`). -/
def SwapchainConfig.from_caps (caps : SurfaceCapabilities) (format : Format)
    (default_extent : Extent2D) : SwapchainConfig :=
  { format := format
    extent :=
      match caps.current_extent with
      | some e => e
      | none =>
        { width := max (min default_extent.width caps.max_extent.width) caps.min_extent.width
          height := max (min default_extent.height caps.max_extent.height) caps.min_extent.height }
    image_count := min (max 2 caps.image_count_min) caps.image_count_max }

/-- renderer.rs:352-365: build the frame's swapchain configuration from
the queried capabilities, then override the image count to 3 when the
surface's supported count range contains 3 (the macOS fullscreen
workaround). -/
def build_swapchain_config (caps : SurfaceCapabilities) (color_format : Format)
    (surface_extent : Extent2D) : SwapchainConfig :=
  let swapchain_config := SwapchainConfig.from_caps caps color_format surface_extent
  if caps.image_count_contains 3 then
    { swapchain_config with image_count := 3 }
  else
    swapchain_config

/-- renderer.rs:116-136: select the surface color format.  The
supported-formats query may fail (`Option`); `unwrap_or(vec![])` turns
a failure into the empty list; the first reported format (or
`Rgba8Srgb` when there is none) is the default; the first format with
channel type `Srgb` wins when one exists. -/
def select_color_format (queried : Option (List Format)) : Format :=
  let supported_formats := queried.getD []
  let preferred := supported_formats.head?
  let dflt := preferred.getD Format.Rgba8Srgb
  (supported_formats.find? (fun format => format.channel = ChannelType.Srgb)).getD dflt

/-- Rust `x as i16` applied to a `u32` value: two's-complement
truncation to the low 16 bits (renderer.rs:425-426). -/
def u32_as_i16 (n : Nat) : Int :=
  let m := n % 65536
  if m < 32768 then (m : Int) else (m : Int) - 65536

/-- `gfx_hal::pso::Rect` with `i16` coordinates, represented as
integers in `[-32768, 32767]`. -/
structure Rect where
  x : Int
  y : Int
  w : Int
  h : Int
deriving DecidableEq

/-- `gfx_hal::device::WaitError` (returned by `wait_for_fence`). -/
inductive WaitError where
  | OutOfMemory
  | DeviceLost
deriving DecidableEq

/-- `gfx_hal::window::AcquireError` (returned by `acquire_image`;
renderer.rs:392 matches any of them with `Err(_)`). -/
inductive AcquireError where
  | NotReady
  | OutOfDate
  | SurfaceLost
  | OutOfMemory
  | DeviceLost
deriving DecidableEq

/-- `gfx_hal::window::PresentError` (returned by `present`). -/
inductive PresentError where
  | OutOfDate
  | SurfaceLost
  | OutOfMemory
  | DeviceLost
deriving DecidableEq

/-- The `Resources` struct of renderer.rs:24-42, with every GPU object
replaced by a numeric handle. -/
structure Resources where
  instanceObj : Nat
  surface : Nat
  device : Nat
  adapter : Nat
  color_format : Format
  render_passes : List Nat
  pipeline_layouts : List Nat
  pipelines : List Nat
  command_pool : Nat
  command_buffer : Nat
  queue_group : Nat
  submission_complete_fence : Nat
  rendering_complete_semaphore : Nat
deriving DecidableEq

/-- The `Renderer` struct of renderer.rs:18-22. -/
structure Renderer where
  resources : Option Resources
  surface_extent : Extent2D
  should_configure_swapchain : Bool
deriving DecidableEq

/-- The graphics-API calls a frame or a teardown performs, recorded in
order. -/
inductive Event where
  | waitForFence (fence : Nat) (timeout_ns : Nat)
  | resetFence (fence : Nat)
  | resetCommandPool (pool : Nat)
  | configureSwapchain (config : SwapchainConfig)
  | acquireImage (timeout_ns : Nat)
  | createFramebuffer (extent : Extent2D)
  | beginCommandBuffer
  | setViewport (rect : Rect)
  | setScissor (rect : Rect)
  | beginRenderPass (rect : Rect)
  | bindGraphicsPipeline (pipeline : Nat)
  | draw (vertices : Nat) (instances : Nat)
  | endRenderPass
  | finishCommandBuffer
  | submit (fence : Nat) (semaphore : Nat)
  | presentImage (semaphore : Nat)
  | destroyFramebuffer
  | destroySemaphore (semaphore : Nat)
  | destroyFence (fence : Nat)
  | destroyGraphicsPipeline (pipeline : Nat)
  | destroyPipelineLayout (layout : Nat)
  | destroyRenderPass (pass : Nat)
  | destroyCommandPool (pool : Nat)
  | unconfigureSwapchain (surface : Nat)
  | destroySurface (surface : Nat)
  | destroyInstance (inst : Nat)
deriving DecidableEq

/-- The distinct panic sites of `render()` (Rust `expect`/`unwrap`
messages given in the comments). -/
inductive PanicMsg where
  /-- `self.resources.as_mut().unwrap()` on `None` (renderer.rs:328). -/
  | unwrapNone
  /-- `res.render_passes[0]` / `res.pipelines[0]` out of bounds
  (renderer.rs:329-330). -/
  | indexOutOfBounds
  /-- `expect("Out of memory or device lost")` (renderer.rs:341). -/
  | outOfMemoryOrDeviceLost
  /-- `expect("Out of memory")` on `reset_fence` (renderer.rs:345). -/
  | outOfMemory
  /-- `expect("Failed to configure swapchain")` (renderer.rs:377). -/
  | failedToConfigureSwapchain
  /-- `.unwrap()` on `create_framebuffer` (renderer.rs:414). -/
  | unwrapErr
deriving DecidableEq

/-- The result of running one operation: a normal return with the new
`Renderer` state and the trace of graphics-API calls performed, or a
process abort (panic) with the trace up to the abort. -/
inductive Outcome where
  | ok (state : Renderer) (tr : List Event)
  | panicked (msg : PanicMsg) (tr : List Event)
deriving DecidableEq

/-- The trace of an outcome. -/
def Outcome.trace : Outcome → List Event
  | Outcome.ok _ tr => tr
  | Outcome.panicked _ tr => tr

/-- Whether the outcome aborted the process. -/
def Outcome.isPanicked : Outcome → Bool
  | Outcome.ok _ _ => false
  | Outcome.panicked _ _ => true

/-- The state of a normal return, if any. -/
def Outcome.state : Outcome → Option Renderer
  | Outcome.ok s _ => some s
  | Outcome.panicked _ _ => none

/-- Rust `Result::is_err`. -/
def Except.is_err : Except ε α → Bool
  | Except.error _ => true
  | Except.ok _ => false

/-- The results the graphics API hands back during one `render()` call.

Per the gfx-hal API the program uses:
* `fence_wait` is the value of `wait_for_fence`
  (`Result<bool, WaitError>`): `Ok(true)` means the fence signaled
  within the timeout, `Ok(false)` means the timeout elapsed without
  the fence signaling, `Err` means out of memory or device lost.
* `reset_fence_ok` is whether `reset_fence` succeeded.
* `caps` is the capability query result (renderer.rs:356).
* `configure_ok` is whether `configure_swapchain` succeeded.
* `acquire` is the value of `acquire_image`
  (`Result<(image, Option<Suboptimal>), AcquireError>`).
* `framebuffer_ok` is whether `create_framebuffer` succeeded.
* `present` is the value of `present`
  (`Result<Option<Suboptimal>, PresentError>`); a suboptimal
  presentation is the `Ok (some _)` case, not an error. -/
structure RenderEnv where
  fence_wait : Except WaitError Bool
  reset_fence_ok : Bool
  caps : SurfaceCapabilities
  configure_ok : Bool
  acquire : Except AcquireError (Nat × Option Unit)
  framebuffer_ok : Bool
  present : Except PresentError (Option Unit)

/-- renderer.rs:337: `const RENDER_TIMEOUT_NS: u64 = 1_000_000_000;`
(one second, in nanoseconds). -/
def RENDER_TIMEOUT_NS : Nat := 1000000000

/-- renderer.rs:399-493: create the framebuffer, record the command
buffer (viewport, scissor, render pass, pipeline, one draw of 3
vertices and 1 instance), submit, present, fold the present result
into the dirty flag (`should_configure_swapchain |= result.is_err()`),
and destroy the transient framebuffer.  `flag` is the dirty flag as
left by the swapchain-check step and `ext` the updated extent. -/
def record_submit_present (self : Renderer) (res : Resources) (pipeline : Nat)
    (flag : Bool) (ext : Extent2D) (tr : List Event) (env : RenderEnv) : Outcome :=
  let tr := tr ++ [Event.createFramebuffer ext]
  if !env.framebuffer_ok then Outcome.panicked PanicMsg.unwrapErr tr
  else
    let viewport : Rect :=
      { x := 0, y := 0, w := u32_as_i16 ext.width, h := u32_as_i16 ext.height }
    let tr := tr ++
      [Event.beginCommandBuffer, Event.setViewport viewport, Event.setScissor viewport,
       Event.beginRenderPass viewport, Event.bindGraphicsPipeline pipeline,
       Event.draw 3 1, Event.endRenderPass, Event.finishCommandBuffer,
       Event.submit res.submission_complete_fence res.rendering_complete_semaphore,
       Event.presentImage res.rendering_complete_semaphore]
    let flag := flag || Except.is_err env.present
    let tr := tr ++ [Event.destroyFramebuffer]
    Outcome.ok
      { self with surface_extent := ext, should_configure_swapchain := flag } tr

/-- renderer.rs:386-397: acquire the next swapchain image with a
1-second timeout; on any failure set the dirty flag and return from
`render()` (the extent update at renderer.rs:368 has already
happened). -/
def acquire_step (self : Renderer) (res : Resources) (pipeline : Nat)
    (flag : Bool) (ext : Extent2D) (tr : List Event) (env : RenderEnv) : Outcome :=
  let tr := tr ++ [Event.acquireImage 1000000000]
  match env.acquire with
  | Except.error _ =>
    Outcome.ok
      { self with surface_extent := ext, should_configure_swapchain := true } tr
  | Except.ok _ => record_submit_present self res pipeline flag ext tr env

/-- renderer.rs:350-384: query the capabilities, build the swapchain
configuration, update the tracked extent, and — only when the dirty
flag is set — apply the configuration to the surface, clearing the
flag on success (a configure failure panics). -/
def swapchain_step (self : Renderer) (res : Resources) (pipeline : Nat)
    (tr : List Event) (env : RenderEnv) : Outcome :=
  let swapchain_config :=
    build_swapchain_config env.caps res.color_format self.surface_extent
  let ext := swapchain_config.extent
  if self.should_configure_swapchain then
    let tr := tr ++ [Event.configureSwapchain swapchain_config]
    if !env.configure_ok then Outcome.panicked PanicMsg.failedToConfigureSwapchain tr
    else acquire_step self res pipeline false ext tr env
  else
    acquire_step self res pipeline self.should_configure_swapchain ext tr env

/-- renderer.rs:332-348: wait on the submission fence with the 1-second
timeout (`expect` aborts only when the wait returns an error — out of
memory or device lost; a timed-out wait returns `Ok(false)` and is not
checked), then reset the fence and the command pool. -/
def fence_wait_step (self : Renderer) (res : Resources) (pipeline : Nat)
    (env : RenderEnv) : Outcome :=
  let tr := [Event.waitForFence res.submission_complete_fence RENDER_TIMEOUT_NS]
  match env.fence_wait with
  | Except.error _ => Outcome.panicked PanicMsg.outOfMemoryOrDeviceLost tr
  | Except.ok _signaled =>
    let tr := tr ++ [Event.resetFence res.submission_complete_fence]
    if !env.reset_fence_ok then Outcome.panicked PanicMsg.outOfMemory tr
    else
      swapchain_step self res pipeline
        (tr ++ [Event.resetCommandPool res.command_pool]) env

/-- renderer.rs:327-494: one `render()` call, driven by the graphics
API results in `env`. -/
def Renderer.render (self : Renderer) (env : RenderEnv) : Outcome :=
  match self.resources with
  | none => Outcome.panicked PanicMsg.unwrapNone []
  | some res =>
    match res.render_passes.head?, res.pipelines.head? with
    | some _render_pass, some pipeline => fence_wait_step self res pipeline env
    | _, _ => Outcome.panicked PanicMsg.indexOutOfBounds []

/-- renderer.rs:319-325: `update_dimensions` stores the given physical
size as the pending extent and marks the swapchain dirty. -/
def Renderer.update_dimensions (self : Renderer) (physical_size : Nat × Nat) : Renderer :=
  { self with
    surface_extent := { width := physical_size.1, height := physical_size.2 }
    should_configure_swapchain := true }

/-- renderer.rs:44-228: `Renderer::new`.  Object creation is modelled
by fixed distinct handles; the color format is selected from the
surface's reported format list (`queried_formats`, `None` when the
query fails); the three object vectors are singletons; the dirty flag
starts `true` so the first frame configures the swapchain. -/
def Renderer.new (physical_size : Nat × Nat) (queried_formats : Option (List Format)) :
    Renderer :=
  { resources := some
      { instanceObj := 0
        surface := 1
        device := 2
        adapter := 3
        color_format := select_color_format queried_formats
        render_passes := [4]
        pipeline_layouts := [5]
        pipelines := [6]
        command_pool := 7
        command_buffer := 8
        queue_group := 9
        submission_complete_fence := 10
        rendering_complete_semaphore := 11 }
    surface_extent := { width := physical_size.1, height := physical_size.2 }
    should_configure_swapchain := true }

/-- renderer.rs:497-520: `impl Drop for Renderer` — take the resources
(`unwrap` panics when they are absent) and destroy every object:
semaphore, fence, each pipeline, each pipeline layout, each render
pass, the command pool, then unconfigure and destroy the surface, then
destroy the instance.  The result is the ordered destruction trace. -/
def Renderer.drop (self : Renderer) : Except PanicMsg (List Event) :=
  match self.resources with
  | none => Except.error PanicMsg.unwrapNone
  | some r =>
    Except.ok
      ([Event.destroySemaphore r.rendering_complete_semaphore,
        Event.destroyFence r.submission_complete_fence]
       ++ r.pipelines.map Event.destroyGraphicsPipeline
       ++ r.pipeline_layouts.map Event.destroyPipelineLayout
       ++ r.render_passes.map Event.destroyRenderPass
       ++ [Event.destroyCommandPool r.command_pool,
           Event.unconfigureSwapchain r.surface,
           Event.destroySurface r.surface,
           Event.destroyInstance r.instanceObj])

/-- The structural well-formedness `Renderer::new` establishes: the
resources are present and the three object vectors have length one. -/
def Renderer.wf (r : Renderer) : Bool :=
  match r.resources with
  | none => false
  | some res =>
    decide (res.render_passes.length = 1) &&
    decide (res.pipeline_layouts.length = 1) &&
    decide (res.pipelines.length = 1)

/-- The public calls an owner of a `Renderer` can interleave after
construction. -/
inductive Call where
  | update_dimensions (physical_size : Nat × Nat)
  | render (env : RenderEnv)

/-- Run a sequence of calls, threading the state and concatenating the
traces; a panic aborts the run. -/
def runCalls (r : Renderer) : List Call → Outcome
  | [] => Outcome.ok r []
  | Call.update_dimensions ps :: rest => runCalls (r.update_dimensions ps) rest
  | Call.render env :: rest =>
    match r.render env with
    | Outcome.ok r' tr =>
      match runCalls r' rest with
      | Outcome.ok r2 tr2 => Outcome.ok r2 (tr ++ tr2)
      | Outcome.panicked m tr2 => Outcome.panicked m (tr ++ tr2)
    | Outcome.panicked m tr => Outcome.panicked m tr

/-- Whether an outcome is one of the two access panics at the start of
`render()` (the `unwrap` on the resources `Option` and the index-0
accesses). -/
def access_panic : Outcome → Bool
  | Outcome.panicked PanicMsg.unwrapNone _ => true
  | Outcome.panicked PanicMsg.indexOutOfBounds _ => true
  | _ => false

/-- Number of `configure_swapchain` calls in a trace. -/
def countConfigures (tr : List Event) : Nat :=
  tr.countP fun e =>
    match e with
    | Event.configureSwapchain _ => true
    | _ => false

/-- The viewport/scissor rectangle `render()` records for a given
extent (renderer.rs:417-430). -/
def viewport_of (ext : Extent2D) : Rect :=
  { x := 0, y := 0, w := u32_as_i16 ext.width, h := u32_as_i16 ext.height }

/-- The trace of the fence-wait step (renderer.rs:332-348). -/
def fence_trace (res : Resources) : List Event :=
  [Event.waitForFence res.submission_complete_fence RENDER_TIMEOUT_NS,
   Event.resetFence res.submission_complete_fence,
   Event.resetCommandPool res.command_pool]

/-- The trace of the swapchain-check step: one configure call when the
dirty flag was set, nothing otherwise (renderer.rs:373-381). -/
def config_trace (flag : Bool) (cfg : SwapchainConfig) : List Event :=
  if flag then [Event.configureSwapchain cfg] else []

/-- The trace of the steps after a successful acquire: framebuffer
creation, command recording, submit, present, framebuffer destruction
(renderer.rs:399-493). -/
def frame_trace (res : Resources) (pipeline : Nat) (ext : Extent2D) : List Event :=
  [Event.createFramebuffer ext,
   Event.beginCommandBuffer, Event.setViewport (viewport_of ext),
   Event.setScissor (viewport_of ext), Event.beginRenderPass (viewport_of ext),
   Event.bindGraphicsPipeline pipeline, Event.draw 3 1,
   Event.endRenderPass, Event.finishCommandBuffer,
   Event.submit res.submission_complete_fence res.rendering_complete_semaphore,
   Event.presentImage res.rendering_complete_semaphore,
   Event.destroyFramebuffer]

/-! ## Helper lemmas characterizing `render` -/

theorem record_submit_present_ok {self : Renderer} {res : Resources} {pipeline : Nat}
    {flag : Bool} {ext : Extent2D} {tr0 : List Event} {env : RenderEnv}
    {s' : Renderer} {tr : List Event}
    (h : record_submit_present self res pipeline flag ext tr0 env = Outcome.ok s' tr) :
    s' = { self with
             surface_extent := ext,
             should_configure_swapchain := flag || Except.is_err env.present } ∧
    tr = tr0 ++ frame_trace res pipeline ext := by
  cases hfb : env.framebuffer_ok <;>
    simp [record_submit_present, hfb, frame_trace, viewport_of] at h ⊢ <;>
    simp [h.1, h.2]

theorem acquire_step_ok {self : Renderer} {res : Resources} {pipeline : Nat}
    {flag : Bool} {ext : Extent2D} {tr0 : List Event} {env : RenderEnv}
    {s' : Renderer} {tr : List Event}
    (h : acquire_step self res pipeline flag ext tr0 env = Outcome.ok s' tr) :
    (Except.is_err env.acquire = true ∧
      s' = { self with surface_extent := ext, should_configure_swapchain := true } ∧
      tr = tr0 ++ [Event.acquireImage 1000000000]) ∨
    (Except.is_err env.acquire = false ∧
      s' = { self with
               surface_extent := ext,
               should_configure_swapchain := flag || Except.is_err env.present } ∧
      tr = tr0 ++ [Event.acquireImage 1000000000] ++ frame_trace res pipeline ext) := by
  cases hacq : env.acquire with
  | error e =>
    left
    simp [acquire_step, hacq, Except.is_err] at h ⊢
    exact ⟨h.1.symm, h.2.symm⟩
  | ok img =>
    right
    simp only [acquire_step, hacq] at h
    have hrec := record_submit_present_ok h
    simp [Except.is_err, hrec.1, hrec.2]

theorem swapchain_step_ok {self : Renderer} {res : Resources} {pipeline : Nat}
    {tr0 : List Event} {env : RenderEnv} {s' : Renderer} {tr : List Event}
    (h : swapchain_step self res pipeline tr0 env = Outcome.ok s' tr) :
    acquire_step self res pipeline false
      (build_swapchain_config env.caps res.color_format self.surface_extent).extent
      (tr0 ++ config_trace self.should_configure_swapchain
        (build_swapchain_config env.caps res.color_format self.surface_extent)) env
      = Outcome.ok s' tr := by
  cases hfl : self.should_configure_swapchain with
  | false =>
    simpa [swapchain_step, hfl, config_trace] using h
  | true =>
    cases hcfg : env.configure_ok <;>
      simp [swapchain_step, hfl, hcfg, config_trace] at h ⊢ <;>
      exact h

theorem fence_wait_step_ok {self : Renderer} {res : Resources} {pipeline : Nat}
    {env : RenderEnv} {s' : Renderer} {tr : List Event}
    (h : fence_wait_step self res pipeline env = Outcome.ok s' tr) :
    swapchain_step self res pipeline (fence_trace res) env = Outcome.ok s' tr := by
  cases hfw : env.fence_wait with
  | error e => simp [fence_wait_step, hfw] at h
  | ok b =>
    cases hrf : env.reset_fence_ok <;>
      simp [fence_wait_step, hfw, hrf, fence_trace] at h ⊢
    exact h

/-- Master characterization of a `render()` call that returns normally:
the resources are untouched, the tracked extent becomes the built
configuration's extent, and the dirty flag and trace are determined by
whether the acquire succeeded. -/
theorem render_ok_shape {r : Renderer} {env : RenderEnv} {s' : Renderer} {tr : List Event}
    (h : r.render env = Outcome.ok s' tr) :
    ∃ res pipeline,
      r.resources = some res ∧
      res.pipelines.head? = some pipeline ∧
      s'.resources = r.resources ∧
      s'.surface_extent =
        (build_swapchain_config env.caps res.color_format r.surface_extent).extent ∧
      ((Except.is_err env.acquire = true ∧
         s'.should_configure_swapchain = true ∧
         tr = fence_trace res
           ++ config_trace r.should_configure_swapchain
                (build_swapchain_config env.caps res.color_format r.surface_extent)
           ++ [Event.acquireImage 1000000000]) ∨
       (Except.is_err env.acquire = false ∧
         s'.should_configure_swapchain = Except.is_err env.present ∧
         tr = fence_trace res
           ++ config_trace r.should_configure_swapchain
                (build_swapchain_config env.caps res.color_format r.surface_extent)
           ++ [Event.acquireImage 1000000000]
           ++ frame_trace res pipeline
                (build_swapchain_config env.caps res.color_format r.surface_extent).extent)) := by
  cases hres : r.resources with
  | none => simp [Renderer.render, hres] at h
  | some res =>
    cases hrp : res.render_passes.head? with
    | none => simp [Renderer.render, hres, hrp] at h
    | some rp =>
      cases hp : res.pipelines.head? with
      | none => simp [Renderer.render, hres, hrp, hp] at h
      | some pipeline =>
        refine ⟨res, pipeline, rfl, hp, ?_⟩
        simp only [Renderer.render, hres, hrp, hp] at h
        have h2 := acquire_step_ok (swapchain_step_ok (fence_wait_step_ok h))
        rcases h2 with ⟨hacq, hs, htr⟩ | ⟨hacq, hs, htr⟩
        · subst hs
          refine ⟨hres, rfl, Or.inl ⟨hacq, rfl, ?_⟩⟩
          simp [htr, List.append_assoc]
        · subst hs
          refine ⟨hres, rfl, Or.inr ⟨hacq, by simp, ?_⟩⟩
          simp [htr, List.append_assoc]

theorem countConfigures_nil : countConfigures [] = 0 := rfl

theorem countConfigures_append (a b : List Event) :
    countConfigures (a ++ b) = countConfigures a + countConfigures b := by
  simp [countConfigures, List.countP_append]

theorem countConfigures_fence_trace (res : Resources) :
    countConfigures (fence_trace res) = 0 := rfl

theorem countConfigures_config_trace (flag : Bool) (cfg : SwapchainConfig) :
    countConfigures (config_trace flag cfg) = if flag then 1 else 0 := by
  cases flag <;> rfl

theorem countConfigures_frame_trace (res : Resources) (pipeline : Nat) (ext : Extent2D) :
    countConfigures (frame_trace res pipeline ext) = 0 := rfl

/-- A `render()` call that starts with the dirty flag clear never
touches the swapchain configuration, whatever the environment does
(including every panic path). -/
theorem render_configures_flag_false (r : Renderer) (env : RenderEnv)
    (h : r.should_configure_swapchain = false) :
    countConfigures (r.render env).trace = 0 := by
  cases hres : r.resources with
  | none => simp [Renderer.render, hres, Outcome.trace, countConfigures]
  | some res =>
    cases hrp : res.render_passes.head? with
    | none => simp [Renderer.render, hres, hrp, Outcome.trace, countConfigures]
    | some rp =>
      cases hp : res.pipelines.head? with
      | none => simp [Renderer.render, hres, hrp, hp, Outcome.trace, countConfigures]
      | some pipeline =>
        simp only [Renderer.render, hres, hrp, hp]
        cases hfw : env.fence_wait with
        | error e => simp [fence_wait_step, hfw, Outcome.trace, countConfigures]
        | ok b =>
          cases hrf : env.reset_fence_ok with
          | false => simp [fence_wait_step, hfw, hrf, Outcome.trace, countConfigures]
          | true =>
            simp only [fence_wait_step, hfw, hrf, Bool.not_true, Bool.false_eq_true,
              if_false, swapchain_step, h]
            cases hacq : env.acquire with
            | error e =>
              simp [acquire_step, hacq, Outcome.trace, countConfigures]
            | ok img =>
              cases hfb : env.framebuffer_ok with
              | false =>
                simp [acquire_step, hacq, record_submit_present, hfb,
                  Outcome.trace, countConfigures]
              | true =>
                simp [acquire_step, hacq, record_submit_present, hfb,
                  Outcome.trace, countConfigures]

/-- A `render()` call that starts with the dirty flag set and gets past
the fence-wait step touches the swapchain configuration exactly once,
whatever happens afterwards (acquire failure, configure panic,
framebuffer panic included). -/
theorem render_configures_flag_true (r : Renderer) (env : RenderEnv) (res : Resources)
    (hres : r.resources = some res)
    (hrp : res.render_passes.head?.isSome = true)
    (hp : res.pipelines.head?.isSome = true)
    (hfw : Except.is_err env.fence_wait = false)
    (hrf : env.reset_fence_ok = true)
    (h : r.should_configure_swapchain = true) :
    countConfigures (r.render env).trace = 1 := by
  rw [Option.isSome_iff_exists] at hrp hp
  obtain ⟨rp, hrp⟩ := hrp
  obtain ⟨pipeline, hp⟩ := hp
  cases hfwc : env.fence_wait with
  | error e => rw [hfwc] at hfw; simp [Except.is_err] at hfw
  | ok b =>
    simp only [Renderer.render, hres, hrp, hp, fence_wait_step, hfwc, hrf,
      Bool.not_true, Bool.false_eq_true, if_false, swapchain_step, h]
    cases hcfg : env.configure_ok with
    | false =>
      simp [hcfg, Outcome.trace, countConfigures, fence_trace]
    | true =>
      cases hacq : env.acquire with
      | error e =>
        simp [hcfg, acquire_step, hacq, Outcome.trace, countConfigures, fence_trace]
      | ok img =>
        cases hfb : env.framebuffer_ok with
        | false =>
          simp [hcfg, acquire_step, hacq, record_submit_present, hfb,
            Outcome.trace, countConfigures, fence_trace]
        | true =>
          simp [hcfg, acquire_step, hacq, record_submit_present, hfb,
            Outcome.trace, countConfigures, fence_trace]

/-- When the wait on the submission fence returns an error (out of
memory or device lost), `render()` aborts right there with that
diagnostic: the trace is the lone fence wait. -/
theorem render_fence_error (r : Renderer) (env : RenderEnv) (res : Resources)
    (hres : r.resources = some res)
    (hrp : res.render_passes.head?.isSome = true)
    (hp : res.pipelines.head?.isSome = true)
    (e : WaitError) (hfw : env.fence_wait = Except.error e) :
    r.render env = Outcome.panicked PanicMsg.outOfMemoryOrDeviceLost
      [Event.waitForFence res.submission_complete_fence RENDER_TIMEOUT_NS] := by
  rw [Option.isSome_iff_exists] at hrp hp
  obtain ⟨rp, hrp⟩ := hrp
  obtain ⟨pipeline, hp⟩ := hp
  simp [Renderer.render, hres, hrp, hp, fence_wait_step, hfw]

theorem record_submit_present_trace_ext (self : Renderer) (res : Resources) (pipeline : Nat)
    (flag : Bool) (ext : Extent2D) (tr0 : List Event) (env : RenderEnv) :
    ∃ suffix, (record_submit_present self res pipeline flag ext tr0 env).trace
      = tr0 ++ suffix := by
  cases hfb : env.framebuffer_ok with
  | false =>
    refine ⟨[Event.createFramebuffer ext], ?_⟩
    simp [record_submit_present, hfb, Outcome.trace]
  | true =>
    refine ⟨frame_trace res pipeline ext, ?_⟩
    simp [record_submit_present, hfb, Outcome.trace, frame_trace, viewport_of]

theorem acquire_step_trace_ext (self : Renderer) (res : Resources) (pipeline : Nat)
    (flag : Bool) (ext : Extent2D) (tr0 : List Event) (env : RenderEnv) :
    ∃ suffix, (acquire_step self res pipeline flag ext tr0 env).trace = tr0 ++ suffix := by
  cases hacq : env.acquire with
  | error e =>
    refine ⟨[Event.acquireImage 1000000000], ?_⟩
    simp [acquire_step, hacq, Outcome.trace]
  | ok img =>
    obtain ⟨suffix, hsuf⟩ :=
      record_submit_present_trace_ext self res pipeline flag ext
        (tr0 ++ [Event.acquireImage 1000000000]) env
    exact ⟨[Event.acquireImage 1000000000] ++ suffix, by
      simp only [acquire_step, hacq]
      simp [hsuf]⟩

theorem swapchain_step_trace_ext (self : Renderer) (res : Resources) (pipeline : Nat)
    (tr0 : List Event) (env : RenderEnv) :
    ∃ suffix, (swapchain_step self res pipeline tr0 env).trace = tr0 ++ suffix := by
  cases hfl : self.should_configure_swapchain with
  | false =>
    obtain ⟨suffix, hsuf⟩ := acquire_step_trace_ext self res pipeline
      self.should_configure_swapchain
      (build_swapchain_config env.caps res.color_format self.surface_extent).extent tr0 env
    exact ⟨suffix, by simp only [swapchain_step, hfl, Bool.false_eq_true, if_false]
                      rw [← hfl]; exact hsuf⟩
  | true =>
    cases hcfg : env.configure_ok with
    | false =>
      refine ⟨[Event.configureSwapchain
        (build_swapchain_config env.caps res.color_format self.surface_extent)], ?_⟩
      simp [swapchain_step, hfl, hcfg, Outcome.trace]
    | true =>
      obtain ⟨suffix, hsuf⟩ := acquire_step_trace_ext self res pipeline false
        (build_swapchain_config env.caps res.color_format self.surface_extent).extent
        (tr0 ++ [Event.configureSwapchain
          (build_swapchain_config env.caps res.color_format self.surface_extent)]) env
      refine ⟨[Event.configureSwapchain
        (build_swapchain_config env.caps res.color_format self.surface_extent)] ++ suffix, ?_⟩
      simp only [swapchain_step, hfl, hcfg, if_true]
      simp [hsuf]

/-- Whatever the environment does, every `render()` call that gets past
the initial accesses opens with the bounded fence wait: its trace
starts with `waitForFence` at the 1-second timeout. -/
theorem render_trace_first (r : Renderer) (env : RenderEnv) (res : Resources)
    (hres : r.resources = some res)
    (hrp : res.render_passes.head?.isSome = true)
    (hp : res.pipelines.head?.isSome = true) :
    ∃ rest, (r.render env).trace
      = Event.waitForFence res.submission_complete_fence RENDER_TIMEOUT_NS :: rest := by
  rw [Option.isSome_iff_exists] at hrp hp
  obtain ⟨rp, hrp⟩ := hrp
  obtain ⟨pipeline, hp⟩ := hp
  simp only [Renderer.render, hres, hrp, hp]
  cases hfw : env.fence_wait with
  | error e =>
    refine ⟨[], ?_⟩
    simp [fence_wait_step, hfw, Outcome.trace]
  | ok b =>
    cases hrf : env.reset_fence_ok with
    | false =>
      refine ⟨[Event.resetFence res.submission_complete_fence], ?_⟩
      simp [fence_wait_step, hfw, hrf, Outcome.trace]
    | true =>
      obtain ⟨suffix, hsuf⟩ := swapchain_step_trace_ext r res pipeline
        (fence_trace res) env
      refine ⟨[Event.resetFence res.submission_complete_fence,
               Event.resetCommandPool res.command_pool] ++ suffix, ?_⟩
      simp only [fence_wait_step, hfw, hrf, Bool.not_true, Bool.false_eq_true, if_false]
      simpa [fence_trace] using hsuf

/-- `render()` never reaches the two access panics once it starts from
a state whose resources are present with nonempty object vectors. -/
theorem render_no_access_panic (r : Renderer) (env : RenderEnv) (res : Resources)
    (hres : r.resources = some res)
    (hrp : res.render_passes.head?.isSome = true)
    (hp : res.pipelines.head?.isSome = true) :
    access_panic (r.render env) = false := by
  rw [Option.isSome_iff_exists] at hrp hp
  obtain ⟨rp, hrp⟩ := hrp
  obtain ⟨pipeline, hp⟩ := hp
  simp only [Renderer.render, hres, hrp, hp]
  cases hfw : env.fence_wait with
  | error e => simp [fence_wait_step, hfw, access_panic]
  | ok b =>
    cases hrf : env.reset_fence_ok with
    | false => simp [fence_wait_step, hfw, hrf, access_panic]
    | true =>
      simp only [fence_wait_step, hfw, hrf, Bool.not_true, Bool.false_eq_true, if_false]
      cases hfl : r.should_configure_swapchain with
      | true =>
        cases hcfg : env.configure_ok with
        | false => simp [swapchain_step, hfl, hcfg, access_panic]
        | true =>
          cases hacq : env.acquire with
          | error e => simp [swapchain_step, hfl, hcfg, acquire_step, hacq, access_panic]
          | ok img =>
            cases hfb : env.framebuffer_ok <;>
              simp [swapchain_step, hfl, hcfg, acquire_step, hacq,
                record_submit_present, hfb, access_panic]
      | false =>
        cases hacq : env.acquire with
        | error e => simp [swapchain_step, hfl, acquire_step, hacq, access_panic]
        | ok img =>
          cases hfb : env.framebuffer_ok <;>
            simp [swapchain_step, hfl, acquire_step, hacq,
              record_submit_present, hfb, access_panic]

theorem wf_of_resources_eq {r₁ r₂ : Renderer} (h : r₁.resources = r₂.resources) :
    r₁.wf = r₂.wf := by
  unfold Renderer.wf
  rw [h]

theorem new_wf (ps : Nat × Nat) (qf : Option (List Format)) :
    (Renderer.new ps qf).wf = true := rfl

theorem update_dimensions_wf (r : Renderer) (ps : Nat × Nat) :
    (r.update_dimensions ps).wf = r.wf := rfl

theorem render_ok_wf {r : Renderer} {env : RenderEnv} {s' : Renderer} {tr : List Event}
    (h : r.render env = Outcome.ok s' tr) : s'.wf = r.wf := by
  obtain ⟨res, pipeline, _, _, hpres, _⟩ := render_ok_shape h
  exact wf_of_resources_eq hpres

/-- Well-formedness is preserved by every normally-returning call
sequence. -/
theorem runCalls_wf (calls : List Call) :
    ∀ (r r' : Renderer) (tr : List Event),
      r.wf = true → runCalls r calls = Outcome.ok r' tr → r'.wf = true := by
  induction calls with
  | nil =>
    intro r r' tr hwf h
    simp only [runCalls] at h
    cases h
    exact hwf
  | cons c rest ih =>
    intro r r' tr hwf h
    cases c with
    | update_dimensions ps =>
      simp only [runCalls] at h
      exact ih _ _ _ (by rw [update_dimensions_wf]; exact hwf) h
    | render env =>
      simp only [runCalls] at h
      cases h1 : r.render env with
      | panicked m tr1 =>
        simp only [h1] at h
        exact Outcome.noConfusion h
      | ok r1 tr1 =>
        simp only [h1] at h
        cases h2 : runCalls r1 rest with
        | panicked m tr2 =>
          simp only [h2] at h
          exact Outcome.noConfusion h
        | ok r2 tr2 =>
          simp only [h2, Outcome.ok.injEq] at h
          obtain ⟨h3, _⟩ := h
          subst h3
          exact ih _ _ _ (by rw [render_ok_wf h1]; exact hwf) h2

theorem swapchain_step_trace_mono (self : Renderer) (res : Resources) (pipeline : Nat)
    (tr0 : List Event) (env : RenderEnv) (e : Event) (he : e ∈ tr0) :
    e ∈ (swapchain_step self res pipeline tr0 env).trace := by
  obtain ⟨suffix, hsuf⟩ := swapchain_step_trace_ext self res pipeline tr0 env
  rw [hsuf]
  exact List.mem_append_left _ he

theorem wf_heads {r : Renderer} (hwf : r.wf = true) :
    ∃ res, r.resources = some res ∧
      res.render_passes.head?.isSome = true ∧
      res.pipeline_layouts.head?.isSome = true ∧
      res.pipelines.head?.isSome = true := by
  unfold Renderer.wf at hwf
  cases hres : r.resources with
  | none => rw [hres] at hwf; simp at hwf
  | some res =>
    rw [hres] at hwf
    simp only [Bool.and_eq_true, decide_eq_true_eq] at hwf
    obtain ⟨⟨h1, h2⟩, h3⟩ := hwf
    refine ⟨res, rfl, ?_, ?_, ?_⟩
    · obtain ⟨a, ha⟩ := List.length_eq_one.mp h1
      simp [ha]
    · obtain ⟨a, ha⟩ := List.length_eq_one.mp h2
      simp [ha]
    · obtain ⟨a, ha⟩ := List.length_eq_one.mp h3
      simp [ha]

/-! ## Concrete sample values (used by counterexamples and witnesses) -/

/-- A concrete surface-capability report: image counts 1..4, no current
extent, extents 1x1 .. 4096x4096. -/
def sampleCaps : SurfaceCapabilities :=
  { image_count_min := 1, image_count_max := 4, current_extent := none
    min_extent := { width := 1, height := 1 }
    max_extent := { width := 4096, height := 4096 } }

/-- An environment in which every graphics call succeeds. -/
def benignEnv : RenderEnv :=
  { fence_wait := Except.ok true, reset_fence_ok := true, caps := sampleCaps
    configure_ok := true, acquire := Except.ok (0, none), framebuffer_ok := true
    present := Except.ok none }

/-- An environment whose present call succeeds with a suboptimal
result (`Ok(Some(Suboptimal))`). -/
def suboptimalEnv : RenderEnv := { benignEnv with present := Except.ok (some ()) }

/-- The resources produced by `Renderer.new` (format query failed, so
the fallback format was chosen). -/
def sampleResources : Resources :=
  { instanceObj := 0, surface := 1, device := 2, adapter := 3
    color_format := Format.Rgba8Srgb
    render_passes := [4], pipeline_layouts := [5], pipelines := [6]
    command_pool := 7, command_buffer := 8, queue_group := 9
    submission_complete_fence := 10, rendering_complete_semaphore := 11 }

/-- A freshly constructed renderer with a 512x512 window. -/
def sampleRenderer : Renderer := Renderer.new (512, 512) none

/-- The configuration the first frame builds against `sampleCaps`. -/
def sampleConfig : SwapchainConfig :=
  build_swapchain_config sampleCaps Format.Rgba8Srgb { width := 512, height := 512 }

/-- The state after one fully successful frame from `sampleRenderer`. -/
def sampleState : Renderer :=
  { resources := some sampleResources
    surface_extent := { width := 512, height := 512 }
    should_configure_swapchain := false }

/-- The trace of one fully successful first frame from
`sampleRenderer`. -/
def sampleTrace : List Event :=
  fence_trace sampleResources ++ config_trace true sampleConfig
    ++ [Event.acquireImage 1000000000]
    ++ frame_trace sampleResources 6 { width := 512, height := 512 }

/-! ## The claims -/

/-- C1, counterexample.  The claim says an expired fence-wait timeout is
fatal and `render()` never proceeds to reset the fence after it.  At
this concrete input the wait returns `Ok(false)` — the timeout elapsed
without the fence signaling — yet `render()` does not abort and its
trace contains the fence reset (and the rest of the frame). -/
theorem fence_wait_timeout_continues_cex :
    ((sampleRenderer.render { benignEnv with fence_wait := Except.ok false }).isPanicked
      = false) ∧
    Event.resetFence 10 ∈
      (sampleRenderer.render { benignEnv with fence_wait := Except.ok false }).trace := by
  constructor <;> decide

/-- C1 (amended): in every `render()` call (from a state that passes the
initial accesses) the wait on the submission fence is bounded by the
1-second timeout `RENDER_TIMEOUT_NS` and is the first graphics call of
the frame; an error from the wait (out of memory or device lost) is
fatal — the process aborts with that diagnostic and nothing further
runs; but a timeout that elapses without the fence signaling
(`Ok(false)`) is not detected: `render()` proceeds to reset the fence
and continue the frame. -/
theorem fence_wait_bounded_error_fatal_timeout_ignored
    (r : Renderer) (env : RenderEnv) (res : Resources)
    (hres : r.resources = some res)
    (hrp : res.render_passes.head?.isSome = true)
    (hp : res.pipelines.head?.isSome = true) :
    RENDER_TIMEOUT_NS = 1000000000 ∧
    (∃ rest, (r.render env).trace =
      Event.waitForFence res.submission_complete_fence RENDER_TIMEOUT_NS :: rest) ∧
    (∀ e, env.fence_wait = Except.error e →
      r.render env = Outcome.panicked PanicMsg.outOfMemoryOrDeviceLost
        [Event.waitForFence res.submission_complete_fence RENDER_TIMEOUT_NS]) ∧
    (env.fence_wait = Except.ok false →
      Event.resetFence res.submission_complete_fence ∈ (r.render env).trace) := by
  refine ⟨rfl, render_trace_first r env res hres hrp hp, ?_, ?_⟩
  · intro e hfw
    exact render_fence_error r env res hres hrp hp e hfw
  · intro hfw
    rw [Option.isSome_iff_exists] at hrp hp
    obtain ⟨rp, hrp⟩ := hrp
    obtain ⟨pipeline, hp⟩ := hp
    simp only [Renderer.render, hres, hrp, hp]
    cases hrf : env.reset_fence_ok with
    | false => simp [fence_wait_step, hfw, hrf, Outcome.trace]
    | true =>
      simp only [fence_wait_step, hfw, hrf, Bool.not_true, Bool.false_eq_true, if_false]
      exact swapchain_step_trace_mono r res pipeline _ env _ (by simp)

/-- Witness for the amended C1 theorem at a concrete input. -/
theorem fence_wait_bounded_error_fatal_timeout_ignored_witness :
    sampleRenderer.resources = some sampleResources ∧
    Event.resetFence sampleResources.submission_complete_fence ∈
      (sampleRenderer.render { benignEnv with fence_wait := Except.ok false }).trace :=
  ⟨rfl,
    (fence_wait_bounded_error_fatal_timeout_ignored sampleRenderer
      { benignEnv with fence_wait := Except.ok false }
      sampleResources rfl rfl rfl).2.2.2 rfl⟩

/-- C2, counterexample.  The claim says a suboptimal present result (a
"failure") forces `should_configure_swapchain = true` on return.  At
this concrete input the present step runs and returns
`Ok(Some(Suboptimal))`, yet the flag is `false` when `render()`
returns: `should_configure_swapchain |= result.is_err()` only reacts
to the `Err` case. -/
theorem present_suboptimal_leaves_flag_clear_cex :
    Event.presentImage 11 ∈ (sampleRenderer.render suboptimalEnv).trace ∧
    (Outcome.state (sampleRenderer.render suboptimalEnv)).map
      Renderer.should_configure_swapchain = some false := by
  constructor <;> decide

/-- C2 (amended): for every `render()` call that reaches the present
step (acquire succeeded and the call returned normally), the dirty
flag on return equals `is_err` of the present result: it is set exactly
when present returns an `Err`; a successful present — a suboptimal one
included — leaves the flag with the value it had before the present
step (which is clear on every such path, the swapchain-check step
having cleared it). -/
theorem present_error_sets_dirty_flag
    (r : Renderer) (env : RenderEnv) (s' : Renderer) (tr : List Event)
    (img : Nat × Option Unit)
    (hacq : env.acquire = Except.ok img)
    (h : r.render env = Outcome.ok s' tr) :
    s'.should_configure_swapchain = Except.is_err env.present := by
  obtain ⟨res, pipeline, _, _, _, _, hdisj⟩ := render_ok_shape h
  rcases hdisj with ⟨ha, _, _⟩ | ⟨_, hflag, _⟩
  · rw [hacq] at ha
    simp [Except.is_err] at ha
  · exact hflag

/-- Witness for the amended C2 theorem at a concrete input. -/
theorem present_error_sets_dirty_flag_witness :
    suboptimalEnv.acquire = Except.ok (0, none) ∧
    sampleRenderer.render suboptimalEnv = Outcome.ok sampleState sampleTrace ∧
    sampleState.should_configure_swapchain = Except.is_err suboptimalEnv.present :=
  ⟨rfl, by decide,
    present_error_sets_dirty_flag sampleRenderer suboptimalEnv sampleState sampleTrace
      (0, none) rfl (by decide)⟩

/-- C3, counterexample.  The claim says every `render()` with the dirty
flag set recreates the fence and semaphore along with the swapchain
image set.  At this concrete input the flag is set and the swapchain is
reconfigured (one configure call in the trace), yet the fence and
semaphore after the call are the very handles from before — the pair is
not recreated. -/
theorem reconfigure_does_not_recreate_sync_pair_cex :
    sampleRenderer.should_configure_swapchain = true ∧
    countConfigures (sampleRenderer.render benignEnv).trace = 1 ∧
    (Outcome.state (sampleRenderer.render benignEnv)).map
      (fun s => s.resources.map
        (fun res => (res.submission_complete_fence, res.rendering_complete_semaphore)))
      = some (some (10, 11)) := by
  refine ⟨rfl, ?_, ?_⟩ <;> decide

/-- C3 (amended): exactly one Synchronization Pair exists; it is created
once at construction and reused every frame.  A `render()` call —
swapchain reconfiguration included — never replaces the resources: a
normal return leaves them (fence and semaphore in particular)
identical. -/
theorem sync_pair_reused_never_recreated
    (r : Renderer) (env : RenderEnv) (s' : Renderer) (tr : List Event)
    (h : r.render env = Outcome.ok s' tr) :
    s'.resources = r.resources := by
  obtain ⟨res, pipeline, _, _, hpres, _⟩ := render_ok_shape h
  exact hpres

/-- Witness for the amended C3 theorem at a concrete input. -/
theorem sync_pair_reused_never_recreated_witness :
    sampleRenderer.render benignEnv = Outcome.ok sampleState sampleTrace ∧
    sampleState.resources = sampleRenderer.resources :=
  ⟨by decide,
    sync_pair_reused_never_recreated sampleRenderer benignEnv sampleState sampleTrace
      (by decide)⟩

/-- C4: if the image-acquire step of `render()` fails (any
`AcquireError`: timeout, out-of-date, surface lost, ...) while the
earlier steps went through, then `render()` returns normally with the
dirty flag set; no framebuffer is created, no command recording starts,
nothing is submitted and nothing is presented in that call's trace; the
resources (pipelines, layouts, render passes, command pool, fence,
semaphore) are unchanged; and the immediately following `render()` call
— any one that does not abort before the swapchain check — applies
exactly one swapchain configuration to the surface. -/
theorem acquire_failure_aborts_frame_and_recovers
    (r : Renderer) (env : RenderEnv) (res : Resources) (e : AcquireError)
    (hres : r.resources = some res)
    (hrp : res.render_passes.head?.isSome = true)
    (hp : res.pipelines.head?.isSome = true)
    (hfw : Except.is_err env.fence_wait = false)
    (hrf : env.reset_fence_ok = true)
    (hcfg : env.configure_ok = true)
    (hacq : env.acquire = Except.error e) :
    (r.render env).isPanicked = false ∧
    (Outcome.state (r.render env)).map Renderer.should_configure_swapchain = some true ∧
    (Outcome.state (r.render env)).map Renderer.resources = some r.resources ∧
    (∀ ext, Event.createFramebuffer ext ∉ (r.render env).trace) ∧
    Event.beginCommandBuffer ∉ (r.render env).trace ∧
    (∀ f s, Event.submit f s ∉ (r.render env).trace) ∧
    (∀ s, Event.presentImage s ∉ (r.render env).trace) ∧
    (∀ env2 : RenderEnv, Except.is_err env2.fence_wait = false →
      env2.reset_fence_ok = true →
      countConfigures
        ((((r.render env).state).getD r).render env2).trace = 1) := by
  rw [Option.isSome_iff_exists] at hrp hp
  obtain ⟨rp, hrpv⟩ := hrp
  obtain ⟨pipeline, hpv⟩ := hp
  cases hfwc : env.fence_wait with
  | error e2 =>
    rw [hfwc] at hfw
    simp [Except.is_err] at hfw
  | ok b =>
    have hrender : r.render env = Outcome.ok
        { r with
            surface_extent :=
              (build_swapchain_config env.caps res.color_format r.surface_extent).extent
            should_configure_swapchain := true }
        (fence_trace res
          ++ config_trace r.should_configure_swapchain
               (build_swapchain_config env.caps res.color_format r.surface_extent)
          ++ [Event.acquireImage 1000000000]) := by
      cases hfl : r.should_configure_swapchain <;>
        simp [Renderer.render, hres, hrpv, hpv, fence_wait_step, hfwc, hrf,
          swapchain_step, hfl, hcfg, acquire_step, hacq, fence_trace, config_trace]
    rw [hrender]
    refine ⟨rfl, rfl, rfl, ?_, ?_, ?_, ?_, ?_⟩
    · intro ext
      cases r.should_configure_swapchain <;>
        simp [Outcome.trace, fence_trace, config_trace]
    · cases r.should_configure_swapchain <;>
        simp [Outcome.trace, fence_trace, config_trace]
    · intro f s
      cases r.should_configure_swapchain <;>
        simp [Outcome.trace, fence_trace, config_trace]
    · intro s
      cases r.should_configure_swapchain <;>
        simp [Outcome.trace, fence_trace, config_trace]
    · intro env2 hfw2 hrf2
      refine render_configures_flag_true _ env2 res hres ?_ ?_ hfw2 hrf2 rfl
      · rw [hrpv]
        rfl
      · rw [hpv]
        rfl

/-- Witness for the C4 theorem at a concrete input. -/
theorem acquire_failure_aborts_frame_and_recovers_witness :
    ({ benignEnv with
        acquire := Except.error AcquireError.OutOfDate } : RenderEnv).acquire
        = Except.error AcquireError.OutOfDate ∧
    (∀ s, Event.presentImage s ∉
      (sampleRenderer.render
        { benignEnv with acquire := Except.error AcquireError.OutOfDate }).trace) ∧
    (∀ env2 : RenderEnv, Except.is_err env2.fence_wait = false →
      env2.reset_fence_ok = true →
      countConfigures
        ((((sampleRenderer.render
              { benignEnv with acquire := Except.error AcquireError.OutOfDate }).state).getD
            sampleRenderer).render env2).trace = 1) :=
  ⟨rfl,
    (acquire_failure_aborts_frame_and_recovers sampleRenderer
      { benignEnv with acquire := Except.error AcquireError.OutOfDate }
      sampleResources AcquireError.OutOfDate rfl rfl rfl rfl rfl rfl rfl).2.2.2.2.2.2.1,
    (acquire_failure_aborts_frame_and_recovers sampleRenderer
      { benignEnv with acquire := Except.error AcquireError.OutOfDate }
      sampleResources AcquireError.OutOfDate rfl rfl rfl rfl rfl rfl rfl).2.2.2.2.2.2.2⟩

/-- C5: reconfiguration is idempotent when the dirty flag is clear.
When a `render()` call returns normally with its acquire succeeding and
its present not failing (no invalidation during the call), then across
this call and the immediately following one — whatever the second
call's environment does — the surface is configured at most once: the
first call configures only when its flag was set and clears it, and the
second observes the flag clear and performs no configure call. -/
theorem reconfigure_idempotent_when_clean
    (r : Renderer) (env1 env2 : RenderEnv) (s1 : Renderer) (tr1 : List Event)
    (h1 : r.render env1 = Outcome.ok s1 tr1)
    (hacq : Except.is_err env1.acquire = false)
    (hpres : Except.is_err env1.present = false) :
    countConfigures tr1 + countConfigures (s1.render env2).trace ≤ 1 := by
  obtain ⟨res, pipeline, _, _, _, _, hdisj⟩ := render_ok_shape h1
  rcases hdisj with ⟨ha, _, _⟩ | ⟨_, hflag, htr⟩
  · rw [hacq] at ha
    exact absurd ha (by simp)
  · have h2 : countConfigures (s1.render env2).trace = 0 :=
      render_configures_flag_false s1 env2 (by rw [hflag, hpres])
    have hA : countConfigures [Event.acquireImage 1000000000] = 0 := rfl
    rw [htr, h2]
    simp only [countConfigures_append, countConfigures_fence_trace,
      countConfigures_config_trace, countConfigures_frame_trace, hA]
    cases r.should_configure_swapchain <;> simp

/-- Witness for the C5 theorem at a concrete input. -/
theorem reconfigure_idempotent_when_clean_witness :
    sampleRenderer.render benignEnv = Outcome.ok sampleState sampleTrace ∧
    countConfigures sampleTrace
      + countConfigures (sampleState.render benignEnv).trace ≤ 1 :=
  ⟨by decide,
    reconfigure_idempotent_when_clean sampleRenderer benignEnv benignEnv
      sampleState sampleTrace (by decide) rfl rfl⟩

/-- C6: on teardown (`Drop` of the `Renderer`, which Rust runs on every
exit path), with the singleton object vectors construction establishes,
the destroy operations happen exactly once each and in this strict
order: rendering semaphore, submission fence, graphics pipeline,
pipeline layout, render pass, command pool, unconfigure and destroy the
surface, destroy the instance — so the instance is never destroyed
before the surface. -/
theorem teardown_strict_order (r : Renderer) (res : Resources) (p l rp : Nat)
    (hres : r.resources = some res)
    (hp : res.pipelines = [p])
    (hl : res.pipeline_layouts = [l])
    (hrp : res.render_passes = [rp]) :
    r.drop = Except.ok
      [Event.destroySemaphore res.rendering_complete_semaphore,
       Event.destroyFence res.submission_complete_fence,
       Event.destroyGraphicsPipeline p,
       Event.destroyPipelineLayout l,
       Event.destroyRenderPass rp,
       Event.destroyCommandPool res.command_pool,
       Event.unconfigureSwapchain res.surface,
       Event.destroySurface res.surface,
       Event.destroyInstance res.instanceObj] := by
  simp [Renderer.drop, hres, hp, hl, hrp]

/-- Witness for the C6 theorem at a concrete input. -/
theorem teardown_strict_order_witness :
    sampleRenderer.resources = some sampleResources ∧
    sampleRenderer.drop = Except.ok
      [Event.destroySemaphore 11, Event.destroyFence 10,
       Event.destroyGraphicsPipeline 6, Event.destroyPipelineLayout 5,
       Event.destroyRenderPass 4, Event.destroyCommandPool 7,
       Event.unconfigureSwapchain 1, Event.destroySurface 1,
       Event.destroyInstance 0] :=
  ⟨rfl,
    teardown_strict_order sampleRenderer sampleResources 6 5 4 rfl rfl rfl rfl⟩

/-- C7: color-format selection is a deterministic function of the
reported format list: if the query fails or reports no formats, the
fixed fallback `Rgba8Srgb` is chosen; if some format has channel type
SRGB, the first such format is chosen; otherwise the first reported
format is chosen. -/
theorem select_color_format_spec (queried : Option (List Format)) :
    (queried.getD [] = [] → select_color_format queried = Format.Rgba8Srgb) ∧
    (∀ pre f post, queried.getD [] = pre ++ f :: post →
      f.channel = ChannelType.Srgb →
      (∀ g ∈ pre, g.channel ≠ ChannelType.Srgb) →
      select_color_format queried = f) ∧
    (∀ f post, queried.getD [] = f :: post →
      (∀ g, g ∈ queried.getD [] → g.channel ≠ ChannelType.Srgb) →
      select_color_format queried = f) := by
  refine ⟨?_, ?_, ?_⟩
  · intro h
    simp [select_color_format, h]
  · intro pre f post hsplit hf hpre
    have hfind : ∀ (pre : List Format), (∀ g ∈ pre, g.channel ≠ ChannelType.Srgb) →
        (pre ++ f :: post).find?
          (fun format => decide (format.channel = ChannelType.Srgb)) = some f := by
      intro pre
      induction pre with
      | nil =>
        intro _
        simp [List.find?, hf]
      | cons g gs ih =>
        intro hall
        have hg : ¬ g.channel = ChannelType.Srgb := hall g (List.mem_cons_self g gs)
        simp only [List.cons_append]
        rw [List.find?_cons_of_neg _ (by simpa using hg)]
        exact ih fun x hx => hall x (List.mem_cons_of_mem g hx)
    simp only [select_color_format, hsplit]
    rw [hfind pre hpre]
    rfl
  · intro f post hsplit hall
    have hfind : (queried.getD []).find?
        (fun format => decide (format.channel = ChannelType.Srgb)) = none := by
      rw [List.find?_eq_none]
      intro x hx
      simpa using hall x hx
    rw [hsplit] at hfind
    simp only [select_color_format, hsplit, hfind]
    rfl

/-- Witness for the C7 theorem at a concrete input: the first SRGB
format wins over an earlier non-SRGB one. -/
theorem select_color_format_spec_witness :
    (some [{ base := 1, channel := ChannelType.Unorm },
           { base := 2, channel := ChannelType.Srgb },
           { base := 3, channel := ChannelType.Srgb }] : Option (List Format)).getD []
      = [{ base := 1, channel := ChannelType.Unorm }]
        ++ { base := 2, channel := ChannelType.Srgb }
          :: [{ base := 3, channel := ChannelType.Srgb }] ∧
    select_color_format
      (some [{ base := 1, channel := ChannelType.Unorm },
             { base := 2, channel := ChannelType.Srgb },
             { base := 3, channel := ChannelType.Srgb }])
      = { base := 2, channel := ChannelType.Srgb } :=
  ⟨rfl,
    (select_color_format_spec
      (some [{ base := 1, channel := ChannelType.Unorm },
             { base := 2, channel := ChannelType.Srgb },
             { base := 3, channel := ChannelType.Srgb }])).2.1
      [{ base := 1, channel := ChannelType.Unorm }]
      { base := 2, channel := ChannelType.Srgb }
      [{ base := 3, channel := ChannelType.Srgb }]
      rfl rfl (by decide)⟩

/-- C8: in the swapchain-check step's configuration construction, the
image count is overridden to 3 exactly when the capabilities' supported
range contains 3; otherwise the count produced by the capability-based
construction is kept unchanged — and that constructed count is itself
clamped into the supported range (whenever the range is nonempty). -/
theorem image_count_override_spec (caps : SurfaceCapabilities) (fmt : Format)
    (ext : Extent2D) :
    (caps.image_count_contains 3 = true →
      (build_swapchain_config caps fmt ext).image_count = 3) ∧
    (caps.image_count_contains 3 = false →
      (build_swapchain_config caps fmt ext).image_count
        = (SwapchainConfig.from_caps caps fmt ext).image_count) ∧
    (caps.image_count_min ≤ caps.image_count_max →
      caps.image_count_min ≤ (SwapchainConfig.from_caps caps fmt ext).image_count ∧
      (SwapchainConfig.from_caps caps fmt ext).image_count ≤ caps.image_count_max) := by
  refine ⟨?_, ?_, ?_⟩
  · intro h
    simp [build_swapchain_config, h]
  · intro h
    simp [build_swapchain_config, h]
  · intro h
    constructor <;> simp [SwapchainConfig.from_caps] <;> omega

/-- Witness for the C8 theorem at a concrete input (range 1..4 contains
3, so the override applies; the degenerate conjuncts are exercised
too). -/
theorem image_count_override_spec_witness :
    sampleCaps.image_count_contains 3 = true ∧
    (build_swapchain_config sampleCaps Format.Rgba8Srgb
      { width := 512, height := 512 }).image_count = 3 :=
  ⟨rfl,
    (image_count_override_spec sampleCaps Format.Rgba8Srgb
      { width := 512, height := 512 }).1 rfl⟩

/-- C9: the viewport and scissor rectangles `render()` records take the
current extent's u32 width and height cast to i16 with two's-complement
truncation: every recorded rectangle equals the current extent's
dimensions under `u32_as_i16`; `update_dimensions` accepts any u32
dimensions without clamping or rejecting them; the cast wraps modulo
2^16 (it agrees with the value mod 65536) and is negative exactly on
the upper half of each wrap period — e.g. width 40000 (> 32767) is
recorded as -25536 rather than clamped or rejected. -/
theorem viewport_truncates_u32_to_i16 :
    (∀ (r : Renderer) (env : RenderEnv) (s' : Renderer) (tr : List Event) (v : Rect),
      r.render env = Outcome.ok s' tr →
      (Event.setViewport v ∈ tr ∨ Event.setScissor v ∈ tr) →
      v = { x := 0, y := 0, w := u32_as_i16 s'.surface_extent.width,
            h := u32_as_i16 s'.surface_extent.height }) ∧
    (∀ (r : Renderer) (w h : Nat),
      (r.update_dimensions (w, h)).surface_extent = { width := w, height := h }) ∧
    (∀ n : Nat, u32_as_i16 n % 65536 = (n : Int) % 65536) ∧
    (∀ n : Nat, 32768 ≤ n % 65536 → u32_as_i16 n < 0) ∧
    (32767 < 40000 ∧ u32_as_i16 40000 = -25536) := by
  refine ⟨?_, ?_, ?_, ?_, by decide, by decide⟩
  · intro r env s' tr v h hmem
    obtain ⟨res, pipeline, hres, hp, hpres, hext, hdisj⟩ := render_ok_shape h
    rcases hdisj with ⟨_, _, htr⟩ | ⟨_, _, htr⟩
    · exfalso
      subst htr
      rcases hmem with hm | hm <;>
        cases hc : r.should_configure_swapchain <;>
          simp [hc, fence_trace, config_trace] at hm
    · subst htr
      rw [hext]
      rcases hmem with hm | hm <;>
        cases hc : r.should_configure_swapchain <;>
          simp [hc, fence_trace, config_trace, frame_trace, viewport_of] at hm <;>
          simp [hm]
  · intro r w h
    rfl
  · intro n
    simp only [u32_as_i16]
    split <;> omega
  · intro n hn
    simp only [u32_as_i16]
    split <;> omega

/-- The capabilities of a surface whose current extent is 40000x40000
(a value `update_dimensions` would also accept). -/
def caps40000 : SurfaceCapabilities :=
  { image_count_min := 1, image_count_max := 4
    current_extent := some { width := 40000, height := 40000 }
    min_extent := { width := 1, height := 1 }
    max_extent := { width := 65535, height := 65535 } }

/-- A fully successful environment over the 40000x40000 surface. -/
def env40000 : RenderEnv := { benignEnv with caps := caps40000 }

/-- The configuration built against `caps40000`. -/
def config40000 : SwapchainConfig :=
  build_swapchain_config caps40000 Format.Rgba8Srgb { width := 512, height := 512 }

/-- The state after one successful frame over the 40000x40000
surface. -/
def state40000 : Renderer :=
  { resources := some sampleResources
    surface_extent := { width := 40000, height := 40000 }
    should_configure_swapchain := false }

/-- The trace of that frame: note the recorded viewport dimensions are
negative (-25536), the wrapped image of 40000. -/
def trace40000 : List Event :=
  fence_trace sampleResources ++ config_trace true config40000
    ++ [Event.acquireImage 1000000000]
    ++ frame_trace sampleResources 6 { width := 40000, height := 40000 }

/-- Witness for the C9 theorem at a concrete input: a 40000-wide extent
is recorded as the negative i16 value -25536. -/
theorem viewport_truncates_u32_to_i16_witness :
    sampleRenderer.render env40000 = Outcome.ok state40000 trace40000 ∧
    Event.setViewport { x := 0, y := 0, w := -25536, h := -25536 } ∈ trace40000 ∧
    ({ x := 0, y := 0, w := -25536, h := -25536 } : Rect)
      = { x := 0, y := 0, w := u32_as_i16 state40000.surface_extent.width,
          h := u32_as_i16 state40000.surface_extent.height } ∧
    u32_as_i16 40000 < 0 :=
  ⟨by decide, by decide,
    viewport_truncates_u32_to_i16.1 sampleRenderer env40000 state40000 trace40000
      { x := 0, y := 0, w := -25536, h := -25536 } (by decide)
      (Or.inl (by decide)),
    viewport_truncates_u32_to_i16.2.2.2.1 40000 (by decide)⟩

/-- C10: after `new` followed by any interleaving of
`update_dimensions` and `render` calls (each returning normally), the
resources `Option` is `Some` and the `render_passes`,
`pipeline_layouts` and `pipelines` vectors still have length exactly
one, so the `resources.as_mut().unwrap()` and the index-0 accesses at
the start of `render()` never panic. -/
theorem construction_invariant_accesses_safe
    (ps : Nat × Nat) (qf : Option (List Format)) (calls : List Call)
    (r' : Renderer) (tr : List Event)
    (h : runCalls (Renderer.new ps qf) calls = Outcome.ok r' tr) :
    r'.resources.isSome = true ∧
    r'.resources.map (fun res => res.render_passes.length) = some 1 ∧
    r'.resources.map (fun res => res.pipeline_layouts.length) = some 1 ∧
    r'.resources.map (fun res => res.pipelines.length) = some 1 ∧
    (∀ env, access_panic (r'.render env) = false) := by
  have hwf : r'.wf = true := runCalls_wf calls _ _ _ (new_wf ps qf) h
  have hlen : ∃ res, r'.resources = some res ∧
      res.render_passes.length = 1 ∧
      res.pipeline_layouts.length = 1 ∧
      res.pipelines.length = 1 := by
    unfold Renderer.wf at hwf
    cases hres : r'.resources with
    | none =>
      rw [hres] at hwf
      simp at hwf
    | some res =>
      rw [hres] at hwf
      simp only [Bool.and_eq_true, decide_eq_true_eq] at hwf
      exact ⟨res, rfl, hwf.1.1, hwf.1.2, hwf.2⟩
  obtain ⟨res, hres, h1, h2, h3⟩ := hlen
  refine ⟨by simp [hres], by simp [hres, h1], by simp [hres, h2], by simp [hres, h3], ?_⟩
  intro env
  obtain ⟨res2, hres2, hrp2, _, hp2⟩ := wf_heads hwf
  exact render_no_access_panic r' env res2 hres2 hrp2 hp2

/-- Witness for the C10 theorem at a concrete input: a frame, a resize back
to the same size, and another frame after construction. -/
theorem construction_invariant_accesses_safe_witness :
    runCalls (Renderer.new (512, 512) none)
      [Call.render benignEnv, Call.update_dimensions (512, 512), Call.render benignEnv]
      = Outcome.ok sampleState (sampleTrace ++ sampleTrace) ∧
    (sampleState.resources.isSome = true ∧
     sampleState.resources.map (fun res => res.render_passes.length) = some 1 ∧
     sampleState.resources.map (fun res => res.pipeline_layouts.length) = some 1 ∧
     sampleState.resources.map (fun res => res.pipelines.length) = some 1 ∧
     (∀ env, access_panic (sampleState.render env) = false)) :=
  ⟨by decide,
    construction_invariant_accesses_safe (512, 512) none
      [Call.render benignEnv, Call.update_dimensions (512, 512), Call.render benignEnv]
      sampleState (sampleTrace ++ sampleTrace) (by decide)⟩

end RustEngine
